import Mathlib

/-!
Verification of the run-command orchestrator of the lingo.dev CLI,
src/packages/cli/src/cli/cmd/run/index.ts, as a shallow embedding.

The orchestrator's `action` is embedded as a function from an environment
(the outcomes of the external collaborators it awaits) to the list of
observable events it performs, in order, together with the terminal outcome
of the process.  The audio notifier `playSound` is embedded separately:
its candidate file list and per-platform command construction are translated
directly from the source, and the promise it returns is modelled by the list
of resolve calls its executor makes, settled by JS first-call-wins semantics.
-/

/-- Kind of notification sound, the argument of playSound in the source. -/
inductive SoundKind
  | success
  | failure
deriving DecidableEq, Repr

/-- The string each sound kind interpolates into the file name. -/
def SoundKind.str : SoundKind → String
  | SoundKind.success => "success"
  | SoundKind.failure => "failure"

/-- Modelled from the spec: Node's path.join, abstracted to separator
concatenation (the ".." component is carried through literally; no
normalization is needed for the properties proved here). -/
def pathJoin (a b : String) : String := a ++ "/" ++ b

/-- The candidate list built inside playSound:
soundFiles = [path.join(assetDir, type + ".mp3")] where
assetDir = path.join(dirname, "../assets").  The list has exactly one
element. -/
def soundFiles (dirname : String) (kind : SoundKind) : List String :=
  [pathJoin (pathJoin dirname "../assets") (kind.str ++ ".mp3")]

/-- JavaScript template-literal interpolation of a possibly-undefined value:
an out-of-bounds array read is undefined and prints as "undefined". -/
def jsString : Option String → String
  | some s => s
  | none => "undefined"

/-- The array read soundFiles[1] used by the primary SoundPlayer call of the
win32 branch (JS indexing: undefined when out of bounds). -/
def winPrimarySoundRef (dirname : String) (kind : SoundKind) : Option String :=
  (soundFiles dirname kind).get? 1

/-- The array read soundFiles[0] used by the Start-Process fallback of the
win32 branch. -/
def winFallbackSoundRef (dirname : String) (kind : SoundKind) : Option String :=
  (soundFiles dirname kind).get? 0

/-- The command string playSound builds from the platform string and the
candidate file list, translated branch by branch from the source. -/
def buildCommand (platform : String) (files : List String) : String :=
  if platform = "linux" then
    String.intercalate " || "
      (files.map fun file =>
        "mpg123 -q \"" ++ file ++ "\" 2>/dev/null || aplay \"" ++ file ++ "\" 2>/dev/null")
  else if platform = "darwin" then
    String.intercalate " || " (files.map fun file => "afplay \"" ++ file ++ "\"")
  else if platform = "win32" then
    "powershell -c \"try \x7b (New-Object Media.SoundPlayer \x27" ++
      jsString (files.get? 1) ++
      "\x27).PlaySync() \x7d catch \x7b Start-Process -FilePath \x27" ++
      jsString (files.get? 0) ++
      "\x27 -WindowStyle Hidden -Wait \x7d\""
  else
    String.intercalate " || "
      (files.map fun file =>
        "aplay \"" ++ file ++ "\" 2>/dev/null || afplay \"" ++ file ++ "\" 2>/dev/null")

/-- Behaviour of the child process spawned by exec: at what time (if ever)
its completion callback fires, and whether the playback command failed.
The callback in the source, () => resolve(), ignores the error argument. -/
structure ExecBehavior where
  cbTime : Option Nat
  cmdFailed : Bool

/-- A resolve or reject call recorded with the time at which it fires. -/
structure SettleCall where
  time : Nat
  isResolve : Bool
deriving DecidableEq, Repr

/-- JS promise semantics: the promise settles at the earliest settle call;
later calls are ignored (on a tie the earlier-registered call wins). -/
def firstSettle (calls : List SettleCall) : Option SettleCall :=
  calls.foldl
    (fun acc c =>
      match acc with
      | none => some c
      | some a => if c.time < a.time then some c else some a)
    none

/-- The settle calls the playSound executor makes: exec's callback (when it
fires) calls resolve regardless of command failure, and setTimeout(resolve,
3000) always fires at 3000.  The command built for the platform is spawned
but does not influence which settle calls exist. -/
def playSoundSettleCalls (platform : String) (kind : SoundKind) (dirname : String)
    (b : ExecBehavior) : List SettleCall :=
  let _command := buildCommand platform (soundFiles dirname kind)
  (match b.cbTime with
    | some t => [⟨t, true⟩]
    | none => []) ++ [⟨3000, true⟩]

/-- The boolean CLI options the orchestrator branches on.  flagsSchema (in
./_types, not under src/) is modelled from the spec: validation either fails
or carries the recognized options through unchanged, so the validated flags
coincide with the raw truthiness of the arguments. -/
structure Flags where
  sound : Bool
  watch : Bool
  debug : Bool
deriving DecidableEq, Repr

/-- Payload shapes passed to trackEvent in the source. -/
inductive Payload
  | configFlags
  | empty
deriving DecidableEq, Repr

/-- Observable events of one invocation of the run command's action, in
program order. -/
inductive Ev
  | logArgs
  | pauseIfDebug (debug : Bool)
  | renderClear
  | renderSpacer
  | renderBanner
  | renderHero
  | setupCall
  | determineAuthIdCall
  | track (auth : Option String) (name : String) (payload : Payload)
  | planCall
  | executeCall
  | summaryRender
  | playSoundEv (kind : SoundKind)
  | watchCall
deriving DecidableEq, Repr

/-- Outcome of the watch phase when it is entered: it may return, throw into
the outer catch, or loop forever. -/
inductive WatchOutcome
  | returns
  | throws
  | diverges
deriving DecidableEq, Repr

/-- Terminal outcome of the action: exitGracefully (status 0),
process.exit(1), or still running inside a never-returning watch loop. -/
inductive Outcome
  | exit0
  | exit1
  | running
deriving DecidableEq, Repr

/-- Environment: outcomes of the external collaborators of one run.
setup/plan/execute may throw (PhaseError).  determineAuthId is modelled from
the spec (its body, in ./_utils, is not under src/): a failure to resolve
must not abort the run, so it returns null rather than throwing.  The UI
renderers and pauseIfDebug are modelled from the spec as having no failure
path (section 4.1 step 3 and the error taxonomy give them none).  watch,
awaited inside the same try block, may return, throw, or run forever. -/
structure Env where
  args : Flags
  parseOk : Bool
  setupOk : Bool
  authId : Option String
  planOk : Bool
  execOk : Bool
  watchOutcome : WatchOutcome

/-- JavaScript x || d on a nullable string (null and the empty string are
falsy). -/
def jsOrStr : Option String → String → String
  | some s, d => if s = "" then d else s
  | none, d => d

/-- The catch block of the action: trackEvent(authId || "unknown",
"cmd.run.error", then the failure sound when the raw sound argument is
truthy, then process.exit(1). -/
def catchPath (pre : List Ev) (authId : Option String) (rawSound : Bool) :
    List Ev × Outcome :=
  let tr := pre ++ [Ev.track (some (jsOrStr authId "unknown")) "cmd.run.error" Payload.empty]
  (if rawSound then tr ++ [Ev.playSoundEv SoundKind.failure] else tr, Outcome.exit1)

/-- Shallow embedding of the action of the run command: console.log, then a
try block running flagsSchema.parse, pauseIfDebug, the intro renders, setup,
determineAuthId, the cmd.run.start event, plan, execute, renderSummary, the
optional success sound, the optional watch phase, the cmd.run.success event
and exitGracefully; every throw lands in catchPath. -/
def action (env : Env) : List Ev × Outcome :=
  let tr0 := [Ev.logArgs]
  if env.parseOk = false then
    catchPath tr0 none env.args.sound
  else
    let flags := env.args
    let tr1 := tr0 ++ [Ev.pauseIfDebug flags.debug, Ev.renderClear, Ev.renderSpacer,
      Ev.renderBanner, Ev.renderHero, Ev.renderSpacer, Ev.setupCall]
    if env.setupOk = false then
      catchPath tr1 none env.args.sound
    else
      let authId := env.authId
      let tr2 := tr1 ++ [Ev.determineAuthIdCall,
        Ev.track authId "cmd.run.start" Payload.configFlags, Ev.renderSpacer, Ev.planCall]
      if env.planOk = false then
        catchPath tr2 authId env.args.sound
      else
        let tr3 := tr2 ++ [Ev.renderSpacer, Ev.executeCall]
        if env.execOk = false then
          catchPath tr3 authId env.args.sound
        else
          let tr4 := tr3 ++ [Ev.renderSpacer, Ev.summaryRender, Ev.renderSpacer]
          let tr5 := if flags.sound then tr4 ++ [Ev.playSoundEv SoundKind.success] else tr4
          if flags.watch then
            let tr6 := tr5 ++ [Ev.watchCall]
            match env.watchOutcome with
            | WatchOutcome.throws => catchPath tr6 authId env.args.sound
            | WatchOutcome.diverges => (tr6, Outcome.running)
            | WatchOutcome.returns =>
                (tr6 ++ [Ev.track authId "cmd.run.success" Payload.configFlags], Outcome.exit0)
          else
            (tr5 ++ [Ev.track authId "cmd.run.success" Payload.configFlags], Outcome.exit0)

/-- The ordered event trace of one run. -/
def trace (env : Env) : List Ev := (action env).1

/-- The terminal outcome of one run. -/
def runOutcome (env : Env) : Outcome := (action env).2

/-- Event predicate: the setup call. -/
def isSetupCall : Ev → Bool
  | Ev.setupCall => true
  | _ => false

/-- Event predicate: the plan call. -/
def isPlanCall : Ev → Bool
  | Ev.planCall => true
  | _ => false

/-- Event predicate: the execute call. -/
def isExecuteCall : Ev → Bool
  | Ev.executeCall => true
  | _ => false

/-- Event predicate: the watch call. -/
def isWatchCall : Ev → Bool
  | Ev.watchCall => true
  | _ => false

/-- Event predicate: the summary render. -/
def isSummaryRender : Ev → Bool
  | Ev.summaryRender => true
  | _ => false

/-- Event predicate: the success sound playback. -/
def isSuccessSound : Ev → Bool
  | Ev.playSoundEv SoundKind.success => true
  | _ => false

/-- Event predicate: the failure sound playback. -/
def isFailureSound : Ev → Bool
  | Ev.playSoundEv SoundKind.failure => true
  | _ => false

/-- Event predicate: any phase invocation (setup, plan, execute, watch). -/
def isPhaseCall (e : Ev) : Bool :=
  isSetupCall e || isPlanCall e || isExecuteCall e || isWatchCall e

/-- Event predicate: a telemetry event with the given name. -/
def isTrackNamed (n : String) : Ev → Bool
  | Ev.track _ m _ => m == n
  | _ => false

/-- Event predicate: any telemetry event. -/
def isTrackEv : Ev → Bool
  | Ev.track _ _ _ => true
  | _ => false

/-- Event predicate: the success telemetry event. -/
def isSuccessTrack : Ev → Bool := isTrackNamed "cmd.run.success"

/-- Event predicate: the error telemetry event. -/
def isErrorTrack : Ev → Bool := isTrackNamed "cmd.run.error"

/-- Whether some event of the trace satisfies the predicate. -/
def hasEv (p : Ev → Bool) (tr : List Ev) : Bool := tr.any p

/-- Whether the first event satisfying p is strictly followed, later in the
trace, by an event satisfying q. -/
def seenThen (p q : Ev → Bool) : List Ev → Bool
  | [] => false
  | e :: rest => if p e then rest.any q else seenThen p q rest

/-- Execute completed without throwing: validation, setup, plan and execute
all succeeded, so control reached the point just after the execute phase. -/
def executeCompleted (env : Env) : Bool :=
  env.parseOk && env.setupOk && env.planOk && env.execOk

/-- An error was caught by the outer guard: a failure before execute
completed, or a throw from the watch phase after it was entered. -/
def errorCaught (env : Env) : Bool :=
  !executeCompleted env ||
    (env.args.watch &&
      (match env.watchOutcome with
        | WatchOutcome.throws => true
        | _ => false))

/-- C3: the success sound is played iff the sound flag is set and the execute
phase completed without throwing; the failure sound is played iff the sound
flag is set and an error was caught by the outer guard. -/
theorem C3_sound_iff (env : Env) :
    hasEv isSuccessSound (trace env) = (env.args.sound && executeCompleted env) ∧
    hasEv isFailureSound (trace env) = (env.args.sound && errorCaught env) := by
  obtain ⟨⟨s, w, d⟩, p, st, a, pl, ex, wo⟩ := env
  cases s <;> cases w <;> cases p <;> cases st <;> cases pl <;> cases ex <;> cases wo <;>
    exact ⟨rfl, rfl⟩

/-- C6: the watch phase is entered iff the watch flag is set and the
preceding plan/execute sequence completed without throwing, and watch is
never entered after a caught error (no watch invocation ever follows the
error telemetry event). -/
theorem C6_watch_iff (env : Env) :
    hasEv isWatchCall (trace env) = (env.args.watch && executeCompleted env) ∧
    seenThen isErrorTrack isWatchCall (trace env) = false := by
  obtain ⟨⟨s, w, d⟩, p, st, a, pl, ex, wo⟩ := env
  cases s <;> cases w <;> cases p <;> cases st <;> cases pl <;> cases ex <;> cases wo <;>
    exact ⟨rfl, rfl⟩

/-- A concrete fully successful run with the watch flag set and a returning
watch phase. -/
def envC1 : Env :=
  ⟨⟨false, true, false⟩, true, true, some "acme", true, true, WatchOutcome.returns⟩

/-- C1 counterexample: in a run where setup, plan and execute all succeed and
the watch flag is set, the success telemetry event is emitted after the watch
phase is entered, not before. -/
theorem C1_counterexample :
    hasEv isWatchCall (trace envC1) = true ∧
    hasEv isSuccessTrack (trace envC1) = true ∧
    seenThen isSuccessTrack isWatchCall (trace envC1) = false ∧
    seenThen isWatchCall isSuccessTrack (trace envC1) = true :=
  ⟨rfl, rfl, rfl, rfl⟩

/-- C1 amended: in every run where setup, plan and execute succeed and the
watch flag is set, the success telemetry event is never emitted before the
watch phase is entered; it is emitted — after the watch entry — exactly when
the watch phase returns, so it is never emitted when watch throws or runs
indefinitely. -/
theorem C1_amended (env : Env) (hc : executeCompleted env = true)
    (hw : env.args.watch = true) :
    seenThen isSuccessTrack isWatchCall (trace env) = false ∧
    hasEv isSuccessTrack (trace env) =
      decide (env.watchOutcome = WatchOutcome.returns) ∧
    seenThen isWatchCall isSuccessTrack (trace env) =
      decide (env.watchOutcome = WatchOutcome.returns) := by
  obtain ⟨⟨s, w, d⟩, p, st, a, pl, ex, wo⟩ := env
  have hw2 : w = true := hw
  subst hw2
  have hc2 : (p && st && pl && ex) = true := hc
  simp only [Bool.and_eq_true] at hc2
  obtain ⟨⟨⟨hp, hst⟩, hpl⟩, hex⟩ := hc2
  subst hp
  subst hst
  subst hpl
  subst hex
  cases s <;> cases wo <;> exact ⟨rfl, rfl, rfl⟩

/-- Witness for C1's amended theorem at the concrete run envC1. -/
theorem C1_amended_witness :
    executeCompleted envC1 = true ∧ envC1.args.watch = true ∧
    (seenThen isSuccessTrack isWatchCall (trace envC1) = false ∧
      hasEv isSuccessTrack (trace envC1) =
        decide (envC1.watchOutcome = WatchOutcome.returns) ∧
      seenThen isWatchCall isSuccessTrack (trace envC1) =
        decide (envC1.watchOutcome = WatchOutcome.returns)) :=
  ⟨rfl, rfl, C1_amended envC1 rfl rfl⟩

/-- A concrete run in which authId resolution fails (null) and every phase
succeeds. -/
def envC2 : Env :=
  ⟨⟨false, false, false⟩, true, true, none, true, true, WatchOutcome.returns⟩

/-- Predicate of claim C2 on telemetry events: every event carries the
"unknown" sentinel in place of the authId. -/
def unknownAuthTrack : Ev → Bool
  | Ev.track auth _ _ => auth == some "unknown"
  | _ => true

/-- Shape the telemetry events actually have after a failed resolution: only
the error event substitutes "unknown"; the others carry the null authId. -/
def nullAuthTrackOk : Ev → Bool
  | Ev.track auth n _ =>
      if n == "cmd.run.error" then auth == some "unknown"
      else auth == (none : Option String)
  | _ => true

/-- C2 counterexample: when authId resolution fails and the run then
succeeds, telemetry events are emitted whose authId is null, not the
"unknown" sentinel — downstream telemetry does not uniformly substitute
"unknown". -/
theorem C2_counterexample :
    hasEv isSuccessTrack (trace envC2) = true ∧
    (trace envC2).all unknownAuthTrack = false :=
  ⟨rfl, rfl⟩

/-- C2 amended: when setup succeeds and authId resolution fails, the run is
not aborted — plan is still invoked, and execute is still invoked exactly
when plan succeeds, just as with a resolved authId — but only the error
telemetry event substitutes the "unknown" sentinel; the start and success
events carry the null authId unchanged. -/
theorem C2_amended (env : Env) (hp : env.parseOk = true) (hs : env.setupOk = true)
    (ha : env.authId = none) :
    hasEv isPlanCall (trace env) = true ∧
    hasEv isExecuteCall (trace env) = env.planOk ∧
    (trace env).all nullAuthTrackOk = true := by
  obtain ⟨⟨s, w, d⟩, p, st, a, pl, ex, wo⟩ := env
  have hp2 : p = true := hp
  have hs2 : st = true := hs
  have ha2 : a = none := ha
  subst hp2
  subst hs2
  subst ha2
  cases s <;> cases w <;> cases pl <;> cases ex <;> cases wo <;> exact ⟨rfl, rfl, rfl⟩

/-- Witness for C2's amended theorem at the concrete run envC2. -/
theorem C2_amended_witness :
    envC2.parseOk = true ∧ envC2.setupOk = true ∧ envC2.authId = none ∧
    (hasEv isPlanCall (trace envC2) = true ∧
      hasEv isExecuteCall (trace envC2) = envC2.planOk ∧
      (trace envC2).all nullAuthTrackOk = true) :=
  ⟨rfl, rfl, rfl, C2_amended envC2 rfl rfl rfl⟩

/-- A concrete fully successful run without watch. -/
def envC4 : Env :=
  ⟨⟨false, false, false⟩, true, true, some "acme", true, true, WatchOutcome.returns⟩

/-- Predicate of claim C4: the telemetry event names the claim lists. -/
def specEventNameOk : Ev → Bool
  | Ev.track _ n _ => n == "run.start" || n == "run.success" || n == "run.error"
  | _ => true

/-- Shape every telemetry event actually emitted has: name cmd.run.start or
cmd.run.success with the config and flags payload, or cmd.run.error with the
empty payload. -/
def trackShapeOk : Ev → Bool
  | Ev.track _ n p =>
      (n == "cmd.run.start" && p == Payload.configFlags) ||
      (n == "cmd.run.success" && p == Payload.configFlags) ||
      (n == "cmd.run.error" && p == Payload.empty)
  | _ => true

/-- C4 counterexample: a successful run emits telemetry events, and none of
them is named run.start, run.success or run.error — the actual names carry a
cmd. prefix. -/
theorem C4_counterexample :
    hasEv isTrackEv (trace envC4) = true ∧
    (trace envC4).all specEventNameOk = false :=
  ⟨rfl, rfl⟩

/-- C4 amended: every telemetry event emitted by the orchestrator is one of
cmd.run.start with the config and flags payload, cmd.run.success with the
config and flags payload, or cmd.run.error with the empty payload. -/
theorem C4_amended (env : Env) : (trace env).all trackShapeOk = true := by
  obtain ⟨⟨s, w, d⟩, p, st, a, pl, ex, wo⟩ := env
  cases s <;> cases w <;> cases p <;> cases st <;> cases pl <;> cases ex <;> cases wo <;> rfl

/-- A concrete invocation whose flags fail schema validation. -/
def envC5 : Env :=
  ⟨⟨true, true, false⟩, false, true, some "acme", true, true, WatchOutcome.returns⟩

/-- C5: for every invocation whose flags fail schema validation, no phase
(setup, plan, execute or watch) is ever invoked and the process exits with
status 1. -/
theorem C5_validation_failure (env : Env) (h : env.parseOk = false) :
    hasEv isPhaseCall (trace env) = false ∧ runOutcome env = Outcome.exit1 := by
  obtain ⟨⟨s, w, d⟩, p, st, a, pl, ex, wo⟩ := env
  have hp : p = false := h
  subst hp
  cases s <;> exact ⟨rfl, rfl⟩

/-- Witness for C5 at the concrete invocation envC5. -/
theorem C5_witness :
    envC5.parseOk = false ∧
    (hasEv isPhaseCall (trace envC5) = false ∧ runOutcome envC5 = Outcome.exit1) :=
  ⟨rfl, C5_validation_failure envC5 rfl⟩

/-- C7: for every platform, either sound kind, any install directory and any
behaviour of the spawned process — including a playback command that fails or
a callback that never fires — the playSound promise settles by a resolve
call (never rejects), at the earlier of the exec callback and the 3000 ms
timer, hence never later than the 3-second ceiling. -/
theorem C7_notifier_settles (platform : String) (kind : SoundKind) (dirname : String)
    (b : ExecBehavior) :
    ∃ c, firstSettle (playSoundSettleCalls platform kind dirname b) = some c ∧
      c.isResolve = true ∧ c.time ≤ 3000 ∧
      c.time = (match b.cbTime with
        | some t => min t 3000
        | none => 3000) := by
  obtain ⟨cb, fail⟩ := b
  cases cb with
  | none => exact ⟨⟨3000, true⟩, rfl, rfl, Nat.le_refl 3000, rfl⟩
  | some t =>
    refine ⟨⟨min t 3000, true⟩, ?_, rfl, Nat.min_le_right t 3000, rfl⟩
    by_cases h : 3000 < t
    · have hm : min t 3000 = 3000 := by omega
      simp [playSoundSettleCalls, firstSettle, h, hm]
    · have hm : min t 3000 = t := by omega
      simp [playSoundSettleCalls, firstSettle, h, hm]

/-- C8 (code bug): the candidate list has exactly one element, yet the win32
branch's primary SoundPlayer call indexes soundFiles[1], which is undefined;
the constructed command therefore interpolates the literal string
"undefined" as the primary path, while only the fallback soundFiles[0] is a
defined candidate. -/
theorem C8_win32_out_of_bounds :
    (soundFiles "/opt/lingo" SoundKind.success).length = 1 ∧
    winPrimarySoundRef "/opt/lingo" SoundKind.success = none ∧
    winPrimarySoundRef "/opt/lingo" SoundKind.failure = none ∧
    winFallbackSoundRef "/opt/lingo" SoundKind.success =
      some "/opt/lingo/../assets/success.mp3" ∧
    buildCommand "win32" (soundFiles "/opt/lingo" SoundKind.success) =
      "powershell -c \"try \x7b (New-Object Media.SoundPlayer \x27undefined\x27).PlaySync() \x7d catch \x7b Start-Process -FilePath \x27/opt/lingo/../assets/success.mp3\x27 -WindowStyle Hidden -Wait \x7d\"" :=
  ⟨rfl, rfl, rfl, rfl, rfl⟩

/-- A concrete successful run whose watch phase throws. -/
def envC9 : Env :=
  ⟨⟨false, true, false⟩, true, true, some "acme", true, true, WatchOutcome.throws⟩

/-- C9 counterexample: when the watch phase throws after a successful
execute, the failure is caught and the process exits with status 1 even
though the summary had already been rendered — a caught failure with a
summary render. -/
theorem C9_counterexample :
    errorCaught envC9 = true ∧ runOutcome envC9 = Outcome.exit1 ∧
    hasEv isSummaryRender (trace envC9) = true :=
  ⟨rfl, rfl, rfl⟩

/-- C9 amended: the summary is rendered iff the execute phase completed
without throwing (so a failure caught before execute completes leaves no
summary); when rendered it precedes the success sound and any watch entry;
and the process exits with status 1 exactly when an error is caught — which,
for a failure thrown by the watch phase, happens after the summary has
already rendered. -/
theorem C9_amended (env : Env) :
    hasEv isSummaryRender (trace env) = executeCompleted env ∧
    seenThen isSummaryRender isSuccessSound (trace env) =
      (executeCompleted env && env.args.sound) ∧
    seenThen isSummaryRender isWatchCall (trace env) =
      (executeCompleted env && env.args.watch) ∧
    decide (runOutcome env = Outcome.exit1) = errorCaught env := by
  obtain ⟨⟨s, w, d⟩, p, st, a, pl, ex, wo⟩ := env
  cases s <;> cases w <;> cases p <;> cases st <;> cases pl <;> cases ex <;> cases wo <;>
    exact ⟨rfl, rfl, rfl, rfl⟩

/-- A concrete invocation with a truthy raw sound argument whose flags fail
schema validation. -/
def envC10 : Env :=
  ⟨⟨true, false, false⟩, false, true, some "acme", true, true, WatchOutcome.returns⟩

/-- C10: when flag validation itself throws, the failure-sound decision reads
the raw CLI sound argument (the validated flags do not exist on this path):
the failure sound is played iff the raw sound argument is truthy; when it is,
the error telemetry event is emitted before the sound playback and the sound
playback is the last event before process.exit(1); the outcome is exit
status 1. -/
theorem C10_raw_sound_error_path (env : Env) (h : env.parseOk = false) :
    hasEv isFailureSound (trace env) = env.args.sound ∧
    (env.args.sound = true →
      seenThen isErrorTrack isFailureSound (trace env) = true ∧
      (trace env).getLast? = some (Ev.playSoundEv SoundKind.failure)) ∧
    runOutcome env = Outcome.exit1 := by
  obtain ⟨⟨s, w, d⟩, p, st, a, pl, ex, wo⟩ := env
  have hp : p = false := h
  subst hp
  cases s
  · exact ⟨rfl, fun hs => Bool.noConfusion hs, rfl⟩
  · exact ⟨rfl, fun _ => ⟨rfl, rfl⟩, rfl⟩

/-- Witness for C10 at the concrete invocation envC10. -/
theorem C10_witness :
    envC10.parseOk = false ∧
    (hasEv isFailureSound (trace envC10) = envC10.args.sound ∧
      (envC10.args.sound = true →
        seenThen isErrorTrack isFailureSound (trace envC10) = true ∧
        (trace envC10).getLast? = some (Ev.playSoundEv SoundKind.failure)) ∧
      runOutcome envC10 = Outcome.exit1) :=
  ⟨rfl, C10_raw_sound_error_path envC10 rfl⟩
